import Mathlib

namespace CCRunner

deriving instance DecidableEq for Except

/-!
Verification of the scheduler / cron / executor / streaming-session core of the
claude-code-runner-python repository, as a shallow embedding in Lean 4.

Python machine integers are modelled as `Int` (arbitrary precision, as in
Python), instants as whole seconds since 0001-01-01T00:00:00 (a `Nat`, the
proleptic Gregorian calendar used by Python `datetime`; sub-second precision
is not claim-relevant), and fallible code as `Except String` / `Option`.
-/

/-! ## Python string primitives (modelled on `List Char`) -/

/-- Whitespace characters recognised by Python `str.strip` / `str.split`. -/
def isPySpace (c : Char) : Bool :=
  c = ' ' || c = '\t' || c = '\n' || c = '\r' || c = Char.ofNat 11 || c = Char.ofNat 12

/-- Python `str.strip()`: drop leading and trailing whitespace. -/
def pyStrip (s : List Char) : List Char :=
  ((s.dropWhile isPySpace).reverse.dropWhile isPySpace).reverse

/-- Python `str.lower()` for the ASCII range (cron tokens are ASCII). -/
def lowerChar (c : Char) : Char :=
  if 'A' ≤ c && c ≤ 'Z' then Char.ofNat (c.toNat + 32) else c

/-- Python `str.lower()` on a character list. -/
def lowerL (s : List Char) : List Char := s.map lowerChar

/-- Python `str.split(sep)` for a one-character separator: split at every
occurrence, keeping empty chunks (so splitting "a,,b" on a comma gives three
chunks). -/
def splitOnChar (sep : Char) : List Char → List (List Char)
  | [] => [[]]
  | c :: cs =>
    let r := splitOnChar sep cs
    if c = sep then [] :: r
    else
      match r with
      | h :: t => (c :: h) :: t
      | [] => [[c]]

/-- Python `str.split()` with no argument: split on whitespace runs and drop
empty chunks. -/
def splitWSAux : List Char → List Char → List (List Char)
  | [], acc => if acc.isEmpty then [] else [acc.reverse]
  | c :: cs, acc =>
    if isPySpace c then
      if acc.isEmpty then splitWSAux cs [] else acc.reverse :: splitWSAux cs []
    else splitWSAux cs (c :: acc)

/-- Python `str.split()` entry point. -/
def splitWS (s : List Char) : List (List Char) := splitWSAux s []

/-- Whether `needle` starts `hay`. -/
def startsWithL : List Char → List Char → Bool
  | [], _ => true
  | _ :: _, [] => false
  | a :: as, b :: bs => a = b && startsWithL as bs

/-- Python `needle in hay` substring test. -/
def containsL (hay needle : List Char) : Bool :=
  startsWithL needle hay ||
    match hay with
    | [] => false
    | _ :: t => containsL t needle

/-- Python `str.isdigit()` (ASCII digits, which is all cron uses). -/
def isDigitsL (s : List Char) : Bool := !s.isEmpty && s.all Char.isDigit

/-- Numeric value of a digit string. -/
def digitsToNat (s : List Char) : Nat :=
  s.foldl (fun acc c => 10 * acc + (c.toNat - '0'.toNat)) 0

/-- Python `int(str)`: optional sign, digits, surrounding whitespace allowed;
anything else raises `ValueError`. -/
def pyInt (s : List Char) : Except String Int :=
  let s := pyStrip s
  match s with
  | [] => .error "invalid literal for int"
  | c :: rest =>
    if c = '-' then
      if isDigitsL rest then .ok (-(digitsToNat rest : Int)) else .error "invalid literal for int"
    else if c = '+' then
      if isDigitsL rest then .ok (digitsToNat rest : Int) else .error "invalid literal for int"
    else if isDigitsL s then .ok (digitsToNat s : Int)
    else .error "invalid literal for int"

/-- Association-list lookup (used for the Python dicts of the source). -/
def alookup {α β : Type} [DecidableEq α] : List (α × β) → α → Option β
  | [], _ => none
  | (k, v) :: rest, key => if k = key then some v else alookup rest key

/-- Association-list upsert, modelling Python dict assignment. -/
def aupsert {α β : Type} [DecidableEq α] : List (α × β) → α → β → List (α × β)
  | [], key, v => [(key, v)]
  | (k, w) :: rest, key, v =>
    if k = key then (k, v) :: rest else (k, w) :: aupsert rest key v

/-- Python `list(range(start, stop, step))` for a nonzero step. -/
def pyRangeList (start stop step : Int) : List Int :=
  if 0 < step then
    let cnt := ((stop - start).toNat + (step.toNat - 1)) / step.toNat
    (List.range cnt).map (fun i => start + step * (i : Int))
  else
    let cnt := ((start - stop).toNat + ((-step).toNat - 1)) / (-step).toNat
    (List.range cnt).map (fun i => start + step * (i : Int))

/-- Python `list(range(start, stop, step))`; a zero step raises `ValueError`. -/
def pyRange (start stop step : Int) : Except String (List Int) :=
  if step = 0 then .error "range arg 3 must not be zero"
  else .ok (pyRangeList start stop step)

/-! ## Proleptic Gregorian calendar (Python `datetime` model)

An instant is a `Nat` counting whole seconds since 0001-01-01T00:00:00.
Python `datetime.weekday()` returns 0 for Monday; 0001-01-01 was a Monday. -/

/-- Gregorian leap-year test, as Python `calendar.isleap`. -/
def isLeapYear (y : Nat) : Bool := (y % 4 = 0 && y % 100 ≠ 0) || y % 400 = 0

/-- Number of days in a month of the proleptic Gregorian calendar. -/
def daysInMonthNat (y m : Nat) : Nat :=
  if m = 2 then (if isLeapYear y then 29 else 28)
  else if m = 4 || m = 6 || m = 9 || m = 11 then 30
  else 31

/-- Days from 0001-01-01 to the first day of year `y`. -/
def daysBeforeYear (y : Nat) : Nat :=
  let n := y - 1
  365 * n + n / 4 + n / 400 - n / 100

/-- Days from the first of January to the first of month `m` in year `y`. -/
def daysBeforeMonth (y m : Nat) : Nat :=
  (List.range (m - 1)).foldl (fun acc k => acc + daysInMonthNat y (k + 1)) 0

/-- Day number (days since 0001-01-01) of a calendar date. -/
def daysFromCivil (y m d : Nat) : Nat :=
  daysBeforeYear y + daysBeforeMonth y m + (d - 1)

/-- Calendar date `(year, month, day)` of a day number, by the standard
era-based conversion. -/
def civilFromDays (n : Nat) : Nat × Nat × Nat :=
  let z := n + 306
  let era := z / 146097
  let doe := z % 146097
  let yoe := (doe - doe / 1460 + doe / 36524 - doe / 146096) / 365
  let y := yoe + era * 400
  let doy := doe - (365 * yoe + yoe / 4 - yoe / 100)
  let mp := (5 * doy + 2) / 153
  let d := doy - (153 * mp + 2) / 5 + 1
  let m := if mp < 10 then mp + 3 else mp - 9
  (if m ≤ 2 then y + 1 else y, m, d)

/-- Seconds since 0001-01-01T00:00:00 of a Python `datetime`. -/
def mkSecs (y m d h mi s : Nat) : Nat :=
  86400 * daysFromCivil y m d + 3600 * h + 60 * mi + s

/-- Python `dt.second`. -/
def dtSecond (n : Nat) : Nat := n % 60

/-- Python `dt.minute`. -/
def dtMinute (n : Nat) : Nat := n / 60 % 60

/-- Python `dt.hour`. -/
def dtHour (n : Nat) : Nat := n / 3600 % 24

/-- Day number of an instant. -/
def dtDays (n : Nat) : Nat := n / 86400

/-- Python `dt.year`. -/
def dtYear (n : Nat) : Nat := (civilFromDays (dtDays n)).1

/-- Python `dt.month`. -/
def dtMonth (n : Nat) : Nat := (civilFromDays (dtDays n)).2.1

/-- Python `dt.day`. -/
def dtDay (n : Nat) : Nat := (civilFromDays (dtDays n)).2.2

/-- Python `dt.weekday()`: 0 = Monday … 6 = Sunday. -/
def pyWeekday (n : Nat) : Nat := dtDays n % 7

/-! ## Cron parser (src/app/scheduler/cron.py)

Field values may be plain integers or `(weekday, nth)` pairs (the Python
source mixes both in one list), so they are modelled as a sum. -/

/-- A cron field value: a plain integer or an `n#k` pair. -/
inductive CronVal : Type
  | num : Int → CronVal
  | pair : Int → Int → CronVal
deriving DecidableEq, Repr

/-- Field ranges, from `RANGES` in cron.py. -/
def cronFieldRange : String → Option (Int × Int)
  | "second" => some (0, 59)
  | "minute" => some (0, 59)
  | "hour" => some (0, 23)
  | "day" => some (1, 31)
  | "month" => some (1, 12)
  | "weekday" => some (0, 6)
  | _ => none

/-- Month-name aliases, from `MONTH_ALIASES` in cron.py. -/
def MONTH_ALIASES : List (List Char × Int) :=
  [("jan".toList, 1), ("feb".toList, 2), ("mar".toList, 3), ("apr".toList, 4),
   ("may".toList, 5), ("jun".toList, 6), ("jul".toList, 7), ("aug".toList, 8),
   ("sep".toList, 9), ("oct".toList, 10), ("nov".toList, 11), ("dec".toList, 12)]

/-- Weekday-name aliases, from `WEEKDAY_ALIASES` in cron.py. -/
def WEEKDAY_ALIASES : List (List Char × Int) :=
  [("sun".toList, 0), ("mon".toList, 1), ("tue".toList, 2), ("wed".toList, 3),
   ("thu".toList, 4), ("fri".toList, 5), ("sat".toList, 6)]

/-- Whole-expression aliases, from `CRON_ALIASES` in cron.py. -/
def CRON_ALIASES : List (List Char × List Char) :=
  [("@yearly".toList, "0 0 1 1 *".toList),
   ("@annually".toList, "0 0 1 1 *".toList),
   ("@monthly".toList, "0 0 1 * *".toList),
   ("@weekly".toList, "0 0 * * 0".toList),
   ("@daily".toList, "0 0 * * *".toList),
   ("@midnight".toList, "0 0 * * *".toList),
   ("@hourly".toList, "0 * * * *".toList)]

/-- CronField dataclass of cron.py. -/
structure CronField where
  field_type : String
  values : List CronVal
  has_wildcard : Bool := false
  has_step : Bool := false
  step_value : Int := 1
  is_range : Bool := false
  range_start : Int := 0
  range_end : Int := 0
  is_list : Bool := false
  list_values : List CronVal := []
  is_last_day : Bool := false
  is_weekday : Bool := false
  nth_weekday : Option (Int × Int) := none
deriving DecidableEq, Repr

/-- CronExpression dataclass of cron.py. -/
structure CronExpression where
  is_extended : Bool := false
  second : Option CronField := none
  minute : Option CronField := none
  hour : Option CronField := none
  day : Option CronField := none
  month : Option CronField := none
  weekday : Option CronField := none
deriving DecidableEq, Repr

/-- CronParser._parse_value: resolve month/weekday aliases (weekday also maps
7 to 0), otherwise require a digit string in range of `int`. -/
def parse_value (value : List Char) (field_type : String) : Except String Int :=
  let v := lowerL value
  let monthHit := if field_type = "month" then alookup MONTH_ALIASES v else none
  match monthHit with
  | some n => .ok n
  | none =>
    let weekdayHit := if field_type = "weekday" then alookup WEEKDAY_ALIASES v else none
    match weekdayHit with
    | some n => .ok n
    | none =>
      if field_type = "weekday" && v = "7".toList then .ok 0
      else if isDigitsL v then .ok (digitsToNat v : Int)
      else .error "invalid field value"

/-- Step sub-branch of CronParser._parse_field (the `/` handling): returns
`none` when the Python code falls through to the later branches. -/
def parse_field_step (f : List Char) (field_type : String) (mn mx : Int) :
    Except String (Option CronField) := do
  if f.contains '/' then
    match splitOnChar '/' f with
    | [base, step] => do
      let step_value ← pyInt step
      if base = "*".toList then
        let values ← pyRange mn (mx + 1) step_value
        return some { field_type := field_type, values := values.map .num,
                      has_wildcard := false, has_step := true, step_value := step_value,
                      is_range := false, range_start := mn, range_end := mx,
                      is_list := false, list_values := [] }
      else if base.contains '-' then
        match splitOnChar '-' base with
        | [startS, endS] => do
          let start_val ← parse_value startS field_type
          let end_val ← parse_value endS field_type
          let values ← pyRange start_val (end_val + 1) step_value
          return some { field_type := field_type, values := values.map .num,
                        has_wildcard := false, has_step := true, step_value := step_value,
                        is_range := true, range_start := start_val, range_end := end_val,
                        is_list := false, list_values := [] }
        | _ => .error "cannot unpack range"
      else
        return none
    | _ => .error "cannot unpack step"
  else
    return none

/-- One element of the list branch of CronParser._parse_field. -/
def parse_list_item (part : List Char) (field_type : String) : Except String CronVal :=
  if part.contains '#' && field_type = "weekday" then
    match splitOnChar '#' part with
    | [weekday_part, nth] => do
      let weekday_val ← parse_value weekday_part field_type
      let nth_val ← pyInt nth
      return .pair weekday_val nth_val
    | _ => .error "cannot unpack nth"
  else do
    let v ← parse_value (pyStrip part) field_type
    return .num v

/-- CronParser._parse_field: parse one cron field string. -/
def parse_field (fieldS : List Char) (field_type : String) : Except String CronField := do
  match cronFieldRange field_type with
  | none => .error "unknown field type"
  | some (mn, mx) =>
    let f := pyStrip fieldS
    if f = "*".toList then
      return { field_type := field_type, values := (pyRangeList mn (mx + 1) 1).map .num,
               has_wildcard := true, has_step := false, step_value := 1,
               is_range := false, range_start := mn, range_end := mx,
               is_list := false, list_values := [] }
    else if lowerL f = "l".toList then
      return { field_type := field_type, values := [], is_last_day := true }
    else if lowerL f = "w".toList then
      return { field_type := field_type, values := [], is_weekday := true }
    else if lowerL f = "lw".toList then
      return { field_type := field_type, values := [], is_last_day := true, is_weekday := true }
    else
      match ← parse_field_step f field_type mn mx with
      | some cf => return cf
      | none =>
        if f.contains ',' then
          let parts := splitOnChar ',' f
          let values ← parts.mapM (fun p => parse_list_item p field_type)
          return { field_type := field_type, values := values,
                   has_wildcard := false, has_step := false, step_value := 1,
                   is_range := false, range_start := 0, range_end := 0,
                   is_list := true, list_values := values }
        else if f.contains '-' then
          match splitOnChar '-' f with
          | [startS, endS] => do
            let start_val ← parse_value startS field_type
            let end_val ← parse_value endS field_type
            return { field_type := field_type,
                     values := (pyRangeList start_val (end_val + 1) 1).map .num,
                     has_wildcard := false, has_step := false, step_value := 1,
                     is_range := true, range_start := start_val, range_end := end_val,
                     is_list := false, list_values := [] }
          | _ => .error "cannot unpack range"
        else if f.contains '#' && field_type = "weekday" then
          match splitOnChar '#' f with
          | [weekday_part, nth] => do
            let weekday_val ← parse_value weekday_part field_type
            let nth_val ← pyInt nth
            return { field_type := field_type, values := [.pair weekday_val nth_val],
                     has_wildcard := false, has_step := false, step_value := 1,
                     is_range := false, range_start := 0, range_end := 0,
                     is_list := false, list_values := [],
                     nth_weekday := some (weekday_val, nth_val) }
          | _ => .error "cannot unpack nth"
        else do
          let value ← parse_value f field_type
          return { field_type := field_type, values := [.num value],
                   has_wildcard := false, has_step := false, step_value := 1,
                   is_range := false, range_start := value, range_end := value,
                   is_list := false, list_values := [.num value] }

/-- CronParser.parse on a character list: alias expansion, then the 5- or
6-field format. -/
def parseL (cronS : List Char) : Except String CronExpression := do
  let cron := pyStrip cronS
  let cron :=
    match alookup CRON_ALIASES (lowerL cron) with
    | some replacement => replacement
    | none => cron
  match splitWS cron with
  | [f0, f1, f2, f3, f4] => do
    return { is_extended := false, second := none,
             minute := (← parse_field f0 "minute"),
             hour := (← parse_field f1 "hour"),
             day := (← parse_field f2 "day"),
             month := (← parse_field f3 "month"),
             weekday := (← parse_field f4 "weekday") }
  | [f0, f1, f2, f3, f4, f5] => do
    return { is_extended := true,
             second := (← parse_field f0 "second"),
             minute := (← parse_field f1 "minute"),
             hour := (← parse_field f2 "hour"),
             day := (← parse_field f3 "day"),
             month := (← parse_field f4 "month"),
             weekday := (← parse_field f5 "weekday") }
  | fields => .error (toString fields.length)

/-- CronParser.parse on a string. -/
def parse (cron : String) : Except String CronExpression := parseL cron.toList

/-! ## Cron matching and next-run computation (cron.py) -/

/-- CronParser._get_last_day_of_month: day component of (first of next month
minus one day). -/
def get_last_day_of_month (year month : Nat) : Nat :=
  let nextMonthDayNum := if month = 12 then daysFromCivil (year + 1) 1 1
                         else daysFromCivil year (month + 1) 1
  (civilFromDays (nextMonthDayNum - 1)).2.2

/-- Day of month (as the source computes it) of the `nth`-th weekday `weekday`
in the month of instant `n`; mirrors the arithmetic in
CronParser._field_matches. -/
def nthWeekdayTarget (weekday nth : Int) (n : Nat) : Int :=
  let first_weekday : Int := (daysFromCivil (dtYear n) (dtMonth n) 1 % 7 : Nat)
  let days_to_first := (weekday - first_weekday) % 7
  1 + days_to_first + (nth - 1) * 7

/-- CronParser._field_matches: whether `value` (the relevant component of the
datetime `n`) matches the field. -/
def field_matches (f : CronField) (value : Int) (n : Nat) : Bool :=
  if f.is_last_day && f.field_type = "day" then
    value = (get_last_day_of_month (dtYear n) (dtMonth n) : Int)
  else if f.is_last_day && f.field_type = "weekday" then
    value = 6
  else if f.is_weekday && f.field_type = "day" then
    let target_day := value
    let weekday : Int := (pyWeekday n : Nat)
    let days_diff := target_day - weekday
    let days_diff := if days_diff < -3 then days_diff + 7
                     else if days_diff > 4 then days_diff - 7
                     else days_diff
    value = weekday + days_diff
  else
    match f.nth_weekday with
    | some (weekday, nth) =>
      let target_day := nthWeekdayTarget weekday nth n
      let last_day : Int := (get_last_day_of_month (dtYear n) (dtMonth n) : Nat)
      if target_day ≤ last_day then value = target_day else false
    | none =>
      if f.is_list then
        f.list_values.any (fun item =>
          match item with
          | .pair weekday nth =>
            let target_day := nthWeekdayTarget weekday nth n
            let last_day : Int := (get_last_day_of_month (dtYear n) (dtMonth n) : Nat)
            decide (target_day ≤ last_day) && value = target_day
          | .num x => value = x)
      else
        f.values.contains (.num value)

/-- Helper for the per-field checks of CronParser._matches: a missing field
always passes. -/
def optFieldOk (of : Option CronField) (value : Int) (n : Nat) : Bool :=
  match of with
  | none => true
  | some f => field_matches f value n

/-- CronParser._matches: the seconds gate for 5-field expressions, then each
field in source order; the weekday component is Python `dt.weekday()`
(0 = Monday), passed to the field check unconverted, exactly as in the
source. -/
def cron_matches_dt (e : CronExpression) (n : Nat) : Bool :=
  (e.is_extended || dtSecond n = 0) &&
  optFieldOk e.second (dtSecond n : Nat) n &&
  optFieldOk e.minute (dtMinute n : Nat) n &&
  optFieldOk e.hour (dtHour n : Nat) n &&
  optFieldOk e.day (dtDay n : Nat) n &&
  optFieldOk e.month (dtMonth n : Nat) n &&
  optFieldOk e.weekday (pyWeekday n : Nat) n

/-- Iteration budget of CronParser.calculate_next_run. -/
def MAX_SEARCH_ITERATIONS : Nat := 366 * 24 * 60

/-- Search loop of CronParser.calculate_next_run: test a match, otherwise
advance by one minute (one second in the 6-field form) and stop past the
one-year guard. -/
def calc_loop (e : CronExpression) (fromYear : Nat) : Nat → Nat → Option Nat
  | 0, _ => none
  | fuel + 1, current =>
    if cron_matches_dt e current then some current
    else
      let next := current + (if e.is_extended then 1 else 60)
      if dtYear next > fromYear + 1 then none
      else calc_loop e fromYear fuel next

/-- CronParser.calculate_next_run: parse (a parse failure yields none), floor
the start to the whole minute for the 5-field form, then search. -/
def calculate_next_run (cron : String) (from_time : Nat) : Option Nat :=
  match parse cron with
  | .error _ => none
  | .ok e =>
    let current := if e.is_extended then from_time else from_time - from_time % 60
    calc_loop e (dtYear from_time) MAX_SEARCH_ITERATIONS current

/-! ## Task model and storage (src/app/scheduler/models.py, storage.py) -/

/-- TaskStatus enum of models.py. -/
inductive TaskStatus : Type
  | PENDING | RUNNING | COMPLETED | FAILED | CANCELLED
deriving DecidableEq, Repr

/-- Task dataclass of models.py (the float fields `cost_usd` and the opaque
`result` dict carry no claim content and are omitted; timestamps are opaque
ISO strings). -/
structure Task where
  id : String
  prompt : String
  workspace : String := "."
  timeout : Int := 600000
  auto_approve : Bool := false
  allowed_tools : Option (List String) := none
  created_at : String := ""
  started_at : Option String := none
  finished_at : Option String := none
  retries : Nat := 0
  status : TaskStatus := .PENDING
  scheduled : Bool := false
  scheduled_id : Option String := none
  error : Option String := none
  files_changed : List String := []
  tools_used : List String := []
deriving DecidableEq, Repr

/-- MAX_HISTORY from config.py. -/
def MAX_HISTORY : Nat := 1000

/-- MAX_RETRIES from config.py. -/
def MAX_RETRIES : Nat := 2

/-- HistoryStorage._add: prepend the task and truncate to MAX_HISTORY
entries. -/
def history_add (task : Task) (tasks : List Task) : List Task :=
  let ts := task :: tasks
  if ts.length > MAX_HISTORY then ts.take MAX_HISTORY else ts

/-- RunningStorage.remove: delete the first entry with the given id. -/
def removeFirstById : List Task → String → List Task
  | [], _ => []
  | t :: ts, i => if t.id = i then ts else t :: removeFirstById ts i

/-- QueueStorage.get: first queue entry with the given id. -/
def queue_get (queue : List Task) (task_id : String) : Option Task :=
  queue.find? (fun t => t.id = task_id)

/-- QueueStorage.pop: head of the FIFO queue together with the remaining
queue. -/
def queue_pop (queue : List Task) : Option (Task × List Task) :=
  match queue with
  | [] => none
  | t :: rest => some (t, rest)

/-- The four task collections of TaskStorage. -/
structure StorageState where
  queue : List Task := []
  running : List Task := []
  completed : List Task := []
  failed : List Task := []
deriving DecidableEq, Repr

/-! ## Executor (src/app/scheduler/executor.py) -/

/-- ErrorType enum of executor.py. -/
inductive ErrorType : Type
  | TRANSIENT | PERMANENT | TIMEOUT | USER_CANCEL | VALIDATION | RESOURCE
deriving DecidableEq, Repr

/-- RETRYABLE_ERRORS from executor.py. -/
def RETRYABLE_ERRORS : List ErrorType := [.TRANSIENT, .TIMEOUT, .RESOURCE]

/-- A Python exception as the executor sees it: whether it is an
asyncio.TimeoutError instance, and its `str()`. -/
structure PyExc where
  is_timeout_exc : Bool
  msg : String
deriving DecidableEq, Repr

/-- Resource keywords of classify_error. -/
def resource_keywords : List String := ["rate limit", "connection", "network", "unavailable"]

/-- Validation keywords of classify_error. -/
def validation_keywords : List String := ["invalid", "validation", "not found", "permission"]

/-- Python `kw in error_str` on the lowercased message. -/
def msgHas (e : PyExc) (kw : String) : Bool :=
  containsL (lowerL e.msg.toList) kw.toList

/-- classify_error from executor.py: timeout, then resource, then validation,
else transient. -/
def classify_error (e : PyExc) : ErrorType :=
  if e.is_timeout_exc || msgHas e "timeout" then .TIMEOUT
  else if resource_keywords.any (fun kw => msgHas e kw) then .RESOURCE
  else if validation_keywords.any (fun kw => msgHas e kw) then .VALIDATION
  else .TRANSIENT

/-- should_retry from executor.py: retry budget not exhausted and the error
class is retryable. -/
def should_retry (task : Task) (error_type : ErrorType) : Bool :=
  if task.retries ≥ MAX_RETRIES then false
  else RETRYABLE_ERRORS.contains error_type

/-- ExecutionResult dataclass of executor.py (success flag, message and error
string; the diagnostic lists carry no claim content). -/
structure ExecutionResult where
  success : Bool
  message : String
  error : Option String := none
deriving DecidableEq, Repr

/-- Outcome of TaskExecutor._handle_retry: the updated storage, the mutated
task and the returned ExecutionResult. -/
structure RetryOutcome where
  storage : StorageState
  task : Task
  result : ExecutionResult
deriving DecidableEq, Repr

/-- TaskExecutor._handle_retry: classify, then either re-queue with an
incremented retry counter and reset timestamps, or terminalise as FAILED into
the failed history. `now` stands for `datetime.now().isoformat()`. -/
def handle_retry (st : StorageState) (task : Task) (e : PyExc) (now : String) : RetryOutcome :=
  let error_type := classify_error e
  if !should_retry task error_type then
    let task := { task with finished_at := some now, status := .FAILED, error := some e.msg }
    { storage := { st with running := removeFirstById st.running task.id,
                           failed := history_add task st.failed },
      task := task,
      result := { success := false, message := "max retries reached", error := some e.msg } }
  else
    let task := { task with retries := task.retries + 1, status := .PENDING,
                            started_at := none, finished_at := none,
                            error := some ("retry " ++ toString (task.retries + 1) ++ "/" ++
                                           toString MAX_RETRIES ++ ": " ++ e.msg) }
    { storage := { st with running := removeFirstById st.running task.id,
                           queue := st.queue ++ [task] },
      task := task,
      result := { success := false, message := "task will be retried", error := some e.msg } }

/-- TaskExecutor._validate_task: non-blank prompt and timeout within
[1000, 3600000]; nothing else is checked. -/
def validate_task (task : Task) : Bool :=
  if task.prompt = "" || pyStrip task.prompt.toList = [] then false
  else if task.timeout < 1000 || task.timeout > 3600000 then false
  else true

/-- The ExecutionResult built by TaskExecutor.execute when validation
fails. -/
def validationFailResult : ExecutionResult :=
  { success := false, message := "task validation failed", error := some "VALIDATION_ERROR" }

/-- Validation stage of TaskExecutor.execute: on failure it returns the
synthesised result immediately with the storage untouched; on success the
run continues (`none`). -/
def execute_validation (st : StorageState) (task : Task) : Option ExecutionResult × StorageState :=
  if !validate_task task then (some validationFailResult, st)
  else (none, st)

/-- VALID_TOOLS registry from src/app/routers/scheduler.py (the HTTP layer,
not the executor). -/
def VALID_TOOLS : List String :=
  ["Read", "Write", "Edit", "Glob", "Grep", "Bash", "Task",
   "TodoWrite", "WebFetch", "WebSearch", "NotebookEdit"]

/-! ## Scheduler immediate-run (src/app/scheduler/scheduler.py) -/

/-- Scheduler.run_task_now: look the task up in the queue and return it; the
queue itself is not modified anywhere in this method. -/
def run_task_now (queue : List Task) (task_id : String) : Option Task :=
  match queue_get queue task_id with
  | none => none
  | some task => some task

/-! ## Streaming client and answer submission
(src/app/claude_runner/client.py, src/app/routers/task.py) -/

/-- The characters stripped by InputValidator.sanitize_user_input
(the literal `dangerous_chars` list of client.py: angle brackets, ampersand,
double quote, single quote and backtick). -/
def dangerous_chars : List Char :=
  ['<', '>', '&', Char.ofNat 34, Char.ofNat 39, Char.ofNat 96]

/-- InputValidator.max_input_length. -/
def max_input_length : Nat := 1000

/-- InputValidator.sanitize_user_input: successively `str.replace` each
dangerous character by the empty string, then truncate to
max_input_length. -/
def sanitize_user_input (s : String) : String :=
  String.mk ((dangerous_chars.foldl (fun acc c => acc.filter (fun x => x != c)) s.toList).take
    max_input_length)

/-- An answer dict as ClaudeCodeClient.submit_answer receives it. -/
structure Answer where
  question_id : String
  answer : String
deriving DecidableEq, Repr

/-- The per-client state manipulated by run_stream / wait_for_answer /
submit_answer: the asyncio.Event is `none` when absent and otherwise carries
its set flag; question states map question ids to QuestionStatus values. -/
structure ClientState where
  session_id : Option String := none
  is_waiting_answer : Bool := false
  pending_question_id : Option String := none
  answer_event : Option Bool := none
  pending_answer : Option Answer := none
  question_states : List (String × String) := []
deriving DecidableEq, Repr

/-- ClaudeCodeClient._update_question_state: dict assignment of the status
value. -/
def update_question_state (st : ClientState) (qid status : String) : ClientState :=
  { st with question_states := aupsert st.question_states qid status }

/-- Python truthiness of an optional string: None and the empty string are
falsy, every other string truthy. -/
def pyTruthy : Option String → Bool
  | none => false
  | some s => s != ""

/-- ClaudeCodeClient.submit_answer: validate the sanitized answer, the
session (the Python `if not self._session_id` rejects both a missing and an
empty session id), the question state (must be SHOWING), then record the
answer and set the one-shot event; any failed check returns false and leaves
the state untouched. -/
def client_submit_answer (st : ClientState) (ans : Answer) : ClientState × Bool :=
  if sanitize_user_input ans.answer = "" then (st, false)
  else if !pyTruthy st.session_id then (st, false)
  else
    match alookup st.question_states ans.question_id with
    | none => (st, false)
    | some current_state =>
      if current_state != "showing" then (st, false)
      else
        match st.answer_event with
        | some false =>
          let st := update_question_state st ans.question_id "processing"
          ({ st with pending_answer := some ans, answer_event := some true }, true)
        | _ => (st, false)

/-- A streaming session as SessionManager holds it. -/
structure SessionState where
  is_waiting : Bool
  client : ClientState
deriving DecidableEq, Repr

/-- The session registry of the SessionManager. -/
structure ServerState where
  sessions : List (String × SessionState)
deriving DecidableEq, Repr

/-- An /api/task/answer request body (follow-up answers carry no claim
content). -/
structure AnswerRequest where
  session_id : String
  question_id : String
  answer : String
deriving DecidableEq, Repr

/-- Response of the submit_answer endpoint: an HTTPException status or
success. -/
inductive RouterResp : Type
  | httpErr : Nat → RouterResp
  | okResp : RouterResp
deriving DecidableEq, Repr

/-- submit_answer of src/app/routers/task.py: 404 for a missing session, 400
when the session or client is not waiting or when a (truthy) pending question
id differs from the submitted one; every error path raises before any state
is modified.  Otherwise the answer is handed to the client and the session
leaves the waiting state. -/
def router_submit_answer (st : ServerState) (req : AnswerRequest) : ServerState × RouterResp :=
  match alookup st.sessions req.session_id with
  | none => (st, .httpErr 404)
  | some sess =>
    if !sess.is_waiting then (st, .httpErr 400)
    else if !sess.client.is_waiting_answer then (st, .httpErr 400)
    else
      let mismatch :=
        match sess.client.pending_question_id with
        | some p => p != "" && p != req.question_id
        | none => false
      if mismatch then (st, .httpErr 400)
      else
        let step := client_submit_answer sess.client
          { question_id := req.question_id, answer := req.answer }
        let sess := { sess with client := step.1, is_waiting := false }
        ({ sessions := aupsert st.sessions req.session_id sess }, .okResp)

/-- The atomic actions of the ask_user_question handling in
ClaudeCodeClient.run_stream (lines 655-686) followed by wait_for_answer, in
source order. -/
inductive QAction : Type
  | updateStatus : String → QAction
  | createSignal : QAction
  | setWaitingFlag : QAction
  | clearPendingAnswer : QAction
  | setPendingQid : QAction
  | emitQuestion : QAction
  | blockWait : QAction
deriving DecidableEq, Repr, BEq

/-- The straight-line action sequence of the question flow: mark the question
PENDING, create the one-shot event, set the waiting flag, clear any previous
answer, record the pending question id, emit the ASK_USER_QUESTION event,
mark the question SHOWING (wait_for_answer), and block on the event. -/
def questionFlow : List QAction :=
  [.updateStatus "pending", .createSignal, .setWaitingFlag, .clearPendingAnswer,
   .setPendingQid, .emitQuestion, .updateStatus "showing", .blockWait]

/-- Effect of one question-flow action on the client state (emitting and
blocking do not change the client fields). -/
def stepQ (qid : String) (st : ClientState) : QAction → ClientState
  | .updateStatus s => update_question_state st qid s
  | .createSignal => { st with answer_event := some false }
  | .setWaitingFlag => { st with is_waiting_answer := true }
  | .clearPendingAnswer => { st with pending_answer := none }
  | .setPendingQid => { st with pending_question_id := some qid }
  | .emitQuestion => st
  | .blockWait => st

/-- Client state after a prefix of the question flow. -/
def runQ (qid : String) (st : ClientState) (acts : List QAction) : ClientState :=
  acts.foldl (stepQ qid) st

/-! ## Derived predicates and concrete fixtures used by the theorems -/

/-- The start instant of the next-run search: the whole minute (5-field) or
whole second (6-field) at or before the caller time, exactly as
calculate_next_run floors its start. -/
def cron_floor (c : String) (t : Nat) : Nat :=
  match parse c with
  | .ok e => if e.is_extended then t else t - t % 60
  | .error _ => t

/-- Whether an instant matches a cron expression string (false for an
unparseable string); the `cron.matches` of the specification. -/
def cron_matches (c : String) (n : Nat) : Bool :=
  match parse c with
  | .ok e => cron_matches_dt e n
  | .error _ => false

/-- A concrete storage state with one running and one failed task. -/
def demoStorage : StorageState :=
  { queue := [], running := [{ id := "t-run", prompt := "p" }],
    completed := [], failed := [{ id := "t-old", prompt := "q" }] }

/-- A concrete queue task. -/
def taskA : Task := { id := "a", prompt := "first task" }

/-- A second concrete queue task. -/
def taskB : Task := { id := "b", prompt := "second task" }

/-- A task whose allowed_tools names a tool outside the VALID_TOOLS
registry but whose prompt and timeout are valid. -/
def evilToolTask : Task :=
  { id := "t-evil", prompt := "run the job", timeout := 600000,
    allowed_tools := some ["EvilTool"] }

/-- A task with a blank (all-whitespace) prompt. -/
def blankPromptTask : Task := { id := "t-blank", prompt := "   " }

/-- A fresh task with no retries yet. -/
def demoRetryTask : Task := { id := "t-r", prompt := "retry me", retries := 0 }

/-- A concrete client waiting on question qA in state SHOWING. -/
def demoClient : ClientState :=
  { session_id := some "s1", is_waiting_answer := true, pending_question_id := some "qA",
    answer_event := some false, pending_answer := none,
    question_states := [("qA", "showing")] }

/-- A concrete waiting session wrapping demoClient. -/
def demoSession : SessionState := { is_waiting := true, client := demoClient }

/-- A concrete session registry holding demoSession under id s1. -/
def demoServer : ServerState := { sessions := [("s1", demoSession)] }

/-! ## Helper lemmas -/

/-- Lookup after an upsert at the same key yields the new value. -/
theorem alookup_aupsert {α β : Type} [DecidableEq α] (l : List (α × β)) (k : α) (v : β) :
    alookup (aupsert l k v) k = some v := by
  induction l with
  | nil => simp [aupsert, alookup]
  | cons p rest ih =>
    by_cases h : p.1 = k
    · simp [aupsert, alookup, h]
    · cases p with
      | mk a b => simp_all [aupsert, alookup]

/-- Soundness of the next-run search loop: any returned instant is at or
after the start instant and matches the expression. -/
theorem calc_loop_sound (e : CronExpression) (fromYear : Nat) :
    ∀ (fuel cur d : Nat), calc_loop e fromYear fuel cur = some d →
      cur ≤ d ∧ cron_matches_dt e d = true := by
  intro fuel
  induction fuel with
  | zero => intro cur d h; exact absurd h (by simp [calc_loop])
  | succ n ih =>
    intro cur d h
    unfold calc_loop at h
    by_cases hm : cron_matches_dt e cur = true
    · rw [if_pos hm] at h
      cases h
      exact ⟨Nat.le_refl _, hm⟩
    · rw [if_neg hm] at h
      by_cases hy : dtYear (cur + (if e.is_extended then 1 else 60)) > fromYear + 1
      · rw [if_pos hy] at h
        exact absurd h (by simp)
      · rw [if_neg hy] at h
        have step := ih (cur + (if e.is_extended then 1 else 60)) d h
        refine ⟨Nat.le_trans ?_ step.1, step.2⟩
        by_cases hx : e.is_extended <;> simp [hx]

/-! ## Claim theorems -/

/-- C1: the parser does interpret the day-of-week field with Sunday = 0 (the
name sun resolves to 0 and 7 is accepted as 0), but the matcher compares the
field against the unconverted Python dt.weekday() where 0 = Monday, so the
fire time computed by calculate_next_run for "0 0 * * 0" from Monday
2024-01-01T00:00:00 is that very Monday (Python weekday 0), not a Sunday
(Python weekday 6) — refuting the claimed Sunday semantics of the fire
times. -/
theorem c1_weekday_divergence :
    alookup WEEKDAY_ALIASES "sun".toList = some 0 ∧
    parse_value "7".toList "weekday" = .ok 0 ∧
    calculate_next_run "0 0 * * 0" (mkSecs 2024 1 1 0 0 0) = some (mkSecs 2024 1 1 0 0 0) ∧
    pyWeekday (mkSecs 2024 1 1 0 0 0) = 0 ∧ pyWeekday (mkSecs 2024 1 1 0 0 0) ≠ 6 := by
  decide

/-- C2: on a handled failure, if the classified error is retryable and the
retry budget is not exhausted then the retry counter is incremented, both
timestamps reset to null, the status returns to PENDING and the task moves
from running back onto the queue; otherwise the task is stamped FAILED and
moves from running into the failed history; in both cases the retry counter
stays at most MAX_RETRIES = 2. -/
theorem c2_retry_behaviour (st : StorageState) (task : Task) (e : PyExc) (now : String)
    (hpre : task.retries ≤ MAX_RETRIES) :
    (RETRYABLE_ERRORS.contains (classify_error e) = true ∧ task.retries < MAX_RETRIES →
      (handle_retry st task e now).task.retries = task.retries + 1 ∧
      (handle_retry st task e now).task.started_at = none ∧
      (handle_retry st task e now).task.finished_at = none ∧
      (handle_retry st task e now).task.status = .PENDING ∧
      (handle_retry st task e now).storage.running = removeFirstById st.running task.id ∧
      (handle_retry st task e now).storage.queue = st.queue ++ [(handle_retry st task e now).task] ∧
      (handle_retry st task e now).storage.failed = st.failed) ∧
    (¬(RETRYABLE_ERRORS.contains (classify_error e) = true ∧ task.retries < MAX_RETRIES) →
      (handle_retry st task e now).task.status = .FAILED ∧
      (handle_retry st task e now).task.finished_at = some now ∧
      (handle_retry st task e now).task.retries = task.retries ∧
      (handle_retry st task e now).storage.running = removeFirstById st.running task.id ∧
      (handle_retry st task e now).storage.failed
        = history_add (handle_retry st task e now).task st.failed ∧
      (handle_retry st task e now).storage.queue = st.queue) ∧
    (handle_retry st task e now).task.retries ≤ MAX_RETRIES := by
  by_cases hsr : should_retry task (classify_error e) = true
  · have hlt : task.retries < MAX_RETRIES := by
      unfold should_retry at hsr
      by_contra hge
      rw [if_pos (by omega)] at hsr
      exact Bool.noConfusion hsr
    refine ⟨fun _ => ?_, fun hcon => ?_, ?_⟩
    · simp [handle_retry, hsr]
    · exfalso
      apply hcon
      unfold should_retry at hsr
      rw [if_neg (by omega)] at hsr
      exact ⟨hsr, hlt⟩
    · simp [handle_retry, hsr]
      omega
  · have hsf : should_retry task (classify_error e) = false := by
      simpa using hsr
    refine ⟨fun hcon => ?_, fun _ => ?_, ?_⟩
    · exfalso
      apply hsr
      unfold should_retry
      rw [if_neg (by omega)]
      exact hcon.1
    · simp [handle_retry, hsf]
    · simp [handle_retry, hsf]
      exact hpre

/-- C2 witness: a fresh task after one handled rate-limit failure still has at
most MAX_RETRIES retries. -/
theorem c2_retry_behaviour_witness :
    demoRetryTask.retries ≤ MAX_RETRIES ∧
    (handle_retry demoStorage demoRetryTask
      { is_timeout_exc := false, msg := "rate limit exceeded" } "T1").task.retries
      ≤ MAX_RETRIES :=
  ⟨by decide,
   (c2_retry_behaviour demoStorage demoRetryTask
     { is_timeout_exc := false, msg := "rate limit exceeded" } "T1" (by decide)).2.2⟩

/-- C3 counterexample: the claim says any computed fire time d satisfies
d ≥ t, but for "* * * * *" at 2024-01-01T00:00:30 the code floors the start
to the whole minute and returns 2024-01-01T00:00:00, thirty seconds before
t. -/
theorem c3_counterexample :
    calculate_next_run "* * * * *" (mkSecs 2024 1 1 0 0 30) = some (mkSecs 2024 1 1 0 0 0) ∧
    mkSecs 2024 1 1 0 0 0 < mkSecs 2024 1 1 0 0 30 := by
  decide

/-- C3 (amended): for every cron string and start time, a returned fire time
is at or after the start floored to the expression granularity (whole minute
for the 5-field form, whole second for the 6-field form) and matches the
expression. -/
theorem c3_next_run_sound (c : String) (t d : Nat)
    (h : calculate_next_run c t = some d) :
    cron_floor c t ≤ d ∧ cron_matches c d = true := by
  unfold calculate_next_run at h
  unfold cron_floor cron_matches
  cases hp : parse c with
  | error s => rw [hp] at h; exact absurd h (by simp)
  | ok e =>
    rw [hp] at h
    exact calc_loop_sound e (dtYear t) MAX_SEARCH_ITERATIONS _ d h

/-- C3 witness: the soundness theorem applied to "* * * * *" at
2024-01-01T00:00:30. -/
theorem c3_next_run_sound_witness :
    cron_floor "* * * * *" (mkSecs 2024 1 1 0 0 30) ≤ mkSecs 2024 1 1 0 0 0 ∧
    cron_matches "* * * * *" (mkSecs 2024 1 1 0 0 0) = true :=
  c3_next_run_sound "* * * * *" (mkSecs 2024 1 1 0 0 30) (mkSecs 2024 1 1 0 0 0) (by decide)

/-- C4 counterexample: the executor validation accepts a task whose
allowed_tools lies outside the VALID_TOOLS registry (so execute does not
reject it), and on a validation failure (blank prompt) execute returns the
synthesised result with the storage — in particular the failed history —
untouched. -/
theorem c4_counterexample :
    validate_task evilToolTask = true ∧
    VALID_TOOLS.contains "EvilTool" = false ∧
    execute_validation demoStorage blankPromptTask = (some validationFailResult, demoStorage) := by
  decide

/-- C4 (amended): executor validation checks only the prompt and the timeout
bounds — it is independent of allowed_tools (the registry check lives in the
HTTP router) — and on a validation failure execute returns the VALIDATION_ERROR
result without modifying any storage collection. -/
theorem c4_amended (st : StorageState) (t : Task) (h : validate_task t = false) :
    (∀ (u : Task) (x : Option (List String)),
       validate_task { u with allowed_tools := x } = validate_task u) ∧
    execute_validation st t = (some validationFailResult, st) := by
  constructor
  · intro u x; rfl
  · simp [execute_validation, h]

/-- C4 witness: the amended theorem applied to the blank-prompt task. -/
theorem c4_amended_witness :
    validate_task blankPromptTask = false ∧
    execute_validation demoStorage blankPromptTask = (some validationFailResult, demoStorage) :=
  ⟨by decide, (c4_amended demoStorage blankPromptTask (by decide)).2⟩

/-- C5: for a session waiting on pending question q, submitting an answer
with a different question id yields HTTP 400 and returns the registry
unchanged (so the session stays waiting, its pending question id unchanged
and the one-shot event unset), and a subsequent answer with the correct id
succeeds: the event is set, the answer recorded and the session leaves the
waiting state. -/
theorem c5_wrong_question_id (st : ServerState) (sid q q2 a a2 : String) (sess : SessionState)
    (hs : alookup st.sessions sid = some sess)
    (hw : sess.is_waiting = true)
    (hcw : sess.client.is_waiting_answer = true)
    (hpq : sess.client.pending_question_id = some q)
    (hqne : q ≠ "")
    (hwrong : q2 ≠ q)
    (hsid : pyTruthy sess.client.session_id = true)
    (hsan : sanitize_user_input a2 ≠ "")
    (hshow : alookup sess.client.question_states q = some "showing")
    (hev : sess.client.answer_event = some false) :
    router_submit_answer st { session_id := sid, question_id := q2, answer := a } =
      (st, .httpErr 400) ∧
    (router_submit_answer st { session_id := sid, question_id := q, answer := a2 }).2 = .okResp ∧
    (∃ sess2,
      alookup (router_submit_answer st
        { session_id := sid, question_id := q, answer := a2 }).1.sessions sid = some sess2 ∧
      sess2.client.answer_event = some true ∧
      sess2.client.pending_answer = some { question_id := q, answer := a2 } ∧
      sess2.is_waiting = false) := by
  have hsub : client_submit_answer sess.client { question_id := q, answer := a2 } =
      ({ update_question_state sess.client q "processing" with
          pending_answer := some { question_id := q, answer := a2 },
          answer_event := some true }, true) := by
    unfold client_submit_answer
    rw [if_neg hsan, if_neg (by simp [hsid]), hshow]
    simp [hev]
  refine ⟨?_, ?_⟩
  · unfold router_submit_answer
    rw [hs]
    simp only [hw, hcw, hpq]
    have hmm : (q != "" && q != q2) = true := by
      simp [bne_iff_ne]
      exact ⟨hqne, fun h => hwrong h.symm⟩
    simp [hmm]
  · unfold router_submit_answer
    rw [hs]
    simp only [hw, hcw, hpq]
    have hmm : (q != "" && q != q) = false := by simp
    simp only [hmm, Bool.not_true, Bool.false_eq_true, if_false, hsub]
    constructor
    · trivial
    · exact ⟨_, alookup_aupsert _ _ _, rfl, rfl, rfl⟩

/-- C5 witness: the error half of the theorem on a concrete waiting session:
the wrong question id gets HTTP 400 with the registry unchanged. -/
theorem c5_wrong_question_id_witness :
    router_submit_answer demoServer { session_id := "s1", question_id := "qB", answer := "hi" } =
      (demoServer, .httpErr 400) :=
  (c5_wrong_question_id demoServer "s1" "qA" "qB" "hi" "yes" demoSession (by decide) (by decide)
    (by decide) (by decide) (by decide) (by decide) (by decide) (by decide) (by decide)
    (by decide)).1

/-- C6: in the question flow of run_stream, the one-shot signal is created and
the waiting state set strictly before the ASK_USER_QUESTION emission, which
strictly precedes the blocking wait; at the emission the signal exists unset
with the pending question id recorded, and an answer submitted against the
blocked state succeeds — the signal is set and the answer recorded, so it is
not lost. -/
theorem c6_question_ordering (qid a : String) (st0 : ClientState)
    (hsid : pyTruthy st0.session_id = true)
    (hsan : sanitize_user_input a ≠ "") :
    (questionFlow.indexOf .createSignal < questionFlow.indexOf .emitQuestion ∧
     questionFlow.indexOf .setWaitingFlag < questionFlow.indexOf .emitQuestion ∧
     questionFlow.indexOf .emitQuestion < questionFlow.indexOf .blockWait) ∧
    ((runQ qid st0 (questionFlow.take (questionFlow.indexOf .emitQuestion))).answer_event
        = some false ∧
     (runQ qid st0 (questionFlow.take (questionFlow.indexOf .emitQuestion))).is_waiting_answer
        = true ∧
     (runQ qid st0 (questionFlow.take (questionFlow.indexOf .emitQuestion))).pending_question_id
        = some qid) ∧
    ((client_submit_answer (runQ qid st0 (questionFlow.take (questionFlow.indexOf .blockWait)))
        { question_id := qid, answer := a }).2 = true ∧
     (client_submit_answer (runQ qid st0 (questionFlow.take (questionFlow.indexOf .blockWait)))
        { question_id := qid, answer := a }).1.answer_event = some true ∧
     (client_submit_answer (runQ qid st0 (questionFlow.take (questionFlow.indexOf .blockWait)))
        { question_id := qid, answer := a }).1.pending_answer
        = some { question_id := qid, answer := a }) := by
  have hblocked : runQ qid st0 (questionFlow.take (questionFlow.indexOf QAction.blockWait)) =
      { st0 with
        question_states := aupsert (aupsert st0.question_states qid "pending") qid "showing",
        answer_event := some false, is_waiting_answer := true,
        pending_answer := none, pending_question_id := some qid } := by
    simp [runQ, questionFlow, stepQ, update_question_state, List.foldl]
  refine ⟨by decide, ?_, ?_⟩
  · refine ⟨?_, ?_, ?_⟩ <;>
      simp [runQ, questionFlow, stepQ, update_question_state, List.foldl]
  · rw [hblocked]
    have hstep : client_submit_answer
        { st0 with
          question_states := aupsert (aupsert st0.question_states qid "pending") qid "showing",
          answer_event := some false, is_waiting_answer := true,
          pending_answer := none, pending_question_id := some qid }
        { question_id := qid, answer := a } =
        ({ update_question_state
            { st0 with
              question_states := aupsert (aupsert st0.question_states qid "pending") qid "showing",
              answer_event := some false, is_waiting_answer := true,
              pending_answer := none, pending_question_id := some qid }
            qid "processing" with
            pending_answer := some { question_id := qid, answer := a },
            answer_event := some true }, true) := by
      unfold client_submit_answer
      rw [if_neg hsan]
      rw [if_neg (by simp [hsid])]
      rw [alookup_aupsert]
      simp
    rw [hstep]
    exact ⟨rfl, rfl, rfl⟩

/-- C6 witness: the ordering half of the theorem at a concrete session. -/
theorem c6_question_ordering_witness :
    questionFlow.indexOf QAction.createSignal < questionFlow.indexOf QAction.emitQuestion ∧
    questionFlow.indexOf QAction.setWaitingFlag < questionFlow.indexOf QAction.emitQuestion ∧
    questionFlow.indexOf QAction.emitQuestion < questionFlow.indexOf QAction.blockWait :=
  (c6_question_ordering "q1" "yes" { session_id := some "s1" } (by decide) (by decide)).1

/-- C7: run_task_now finds the queue entry by id and returns it but never
moves it, so with queue [taskA, taskB] asking for b still leaves the next pop
returning a — refuting the claimed move-to-head semantics (which the method
docstring itself promises). -/
theorem c7_run_task_now_divergence :
    run_task_now [taskA, taskB] "b" = some taskB ∧
    (queue_pop [taskA, taskB]).map (fun p => p.1.id) = some "a" ∧
    taskA.id ≠ taskB.id := by
  decide

/-- C8: every history insertion keeps at most MAX_HISTORY = 1000 entries
(whatever the prior contents), puts the new task at the head and preserves
newest-first order: the stored list is an initial segment of the prepended
list. -/
theorem c8_history_bound (t : Task) (ts : List Task) :
    (history_add t ts).length ≤ MAX_HISTORY ∧
    (history_add t ts).head? = some t ∧
    ∃ rest, history_add t ts ++ rest = t :: ts := by
  unfold history_add MAX_HISTORY
  by_cases h : (t :: ts).length > 1000
  · simp only [if_pos h]
    refine ⟨?_, ?_, (t :: ts).drop 1000, ?_⟩
    · simp [List.length_take]
    · rw [show (1000 : Nat) = 999 + 1 from rfl, List.take_succ_cons]; rfl
    · exact List.take_append_drop 1000 (t :: ts)
  · simp only [if_neg h]
    exact ⟨by simp at h; simpa using h, rfl, [], by simp⟩

/-- C9 counterexample: the sanitizer also removes the backtick, so on the
input a-backtick-b it returns "ab" while removing only the five claimed
characters would leave the input unchanged. -/
theorem c9_counterexample :
    sanitize_user_input (String.mk ['a', Char.ofNat 96, 'b']) = "ab" ∧
    String.mk (((String.mk ['a', Char.ofNat 96, 'b']).toList.filter
      (fun c => decide (c ∉ ['<', '>', '&', Char.ofNat 34, Char.ofNat 39]))).take 1000)
      = String.mk ['a', Char.ofNat 96, 'b'] ∧
    ("ab" : String) ≠ String.mk ['a', Char.ofNat 96, 'b'] := by
  decide

/-- C9 (amended): the sanitizer returns its input with exactly the six
characters of dangerous_chars (the five claimed ones plus the backtick)
removed, truncated to max_input_length = 1000 characters, all other
characters preserved in order. -/
theorem c9_amended (s : String) :
    sanitize_user_input s =
      String.mk ((s.toList.filter (fun c => decide (c ∉ dangerous_chars))).take
        max_input_length) := by
  unfold sanitize_user_input
  congr 1
  congr 1
  simp only [dangerous_chars, List.foldl, List.filter_filter]
  apply List.filter_congr
  intro c _
  simp only [dangerous_chars, List.mem_cons, List.not_mem_nil, or_false, decide_not]
  rw [Bool.eq_iff_iff]
  simp only [Bool.and_eq_true, bne_iff_ne, ne_eq, decide_eq_true_eq,
    Bool.not_eq_true', decide_eq_false_iff_not]
  tauto

/-- C10: error classification is the stated total precedence — TIMEOUT for a
TimeoutError instance or a message containing "timeout"; otherwise RESOURCE
on any resource keyword; otherwise VALIDATION on any validation keyword;
otherwise TRANSIENT — and a non-timeout message containing both a resource
and a validation keyword is classified RESOURCE, which is retryable. -/
theorem c10_classification (e : PyExc) :
    (classify_error e = .TIMEOUT ↔ (e.is_timeout_exc || msgHas e "timeout") = true) ∧
    (classify_error e = .RESOURCE ↔
      ((e.is_timeout_exc || msgHas e "timeout") = false ∧
       resource_keywords.any (fun kw => msgHas e kw) = true)) ∧
    (classify_error e = .VALIDATION ↔
      ((e.is_timeout_exc || msgHas e "timeout") = false ∧
       resource_keywords.any (fun kw => msgHas e kw) = false ∧
       validation_keywords.any (fun kw => msgHas e kw) = true)) ∧
    (classify_error e = .TRANSIENT ↔
      ((e.is_timeout_exc || msgHas e "timeout") = false ∧
       resource_keywords.any (fun kw => msgHas e kw) = false ∧
       validation_keywords.any (fun kw => msgHas e kw) = false)) ∧
    (resource_keywords.any (fun kw => msgHas e kw) = true →
     validation_keywords.any (fun kw => msgHas e kw) = true →
     (e.is_timeout_exc || msgHas e "timeout") = false →
     classify_error e = .RESOURCE ∧ RETRYABLE_ERRORS.contains (classify_error e) = true) := by
  unfold classify_error
  split_ifs with h1 h2 h3
  · refine ⟨by simp [h1], by simp [h1], by simp [h1], by simp [h1], ?_⟩
    intro _ _ hc
    rw [h1] at hc
    exact Bool.noConfusion hc
  · refine ⟨by simp [h1], by simp [h1, h2], by simp [h2], by simp [h2], ?_⟩
    intro _ _ _
    exact ⟨rfl, by decide⟩
  · refine ⟨by simp [h1], by simp [h2], by simp [h1, h2, h3], by simp [h3], ?_⟩
    intro hr _ _
    exact absurd hr h2
  · refine ⟨by simp [h1], by simp [h2], by simp [h3], by simp [h1, h2, h3], ?_⟩
    intro hr _ _
    exact absurd hr h2

/-- C10 witness: a message with both a resource and a validation keyword is
classified RESOURCE and is retryable. -/
theorem c10_classification_witness :
    classify_error { is_timeout_exc := false, msg := "connection invalid" } = .RESOURCE ∧
    RETRYABLE_ERRORS.contains
      (classify_error { is_timeout_exc := false, msg := "connection invalid" }) = true :=
  (c10_classification { is_timeout_exc := false, msg := "connection invalid" }).2.2.2.2
    (by decide) (by decide) (by decide)

end CCRunner
